import Mathlib

/-!
Shallow embedding of the M5PS3_FEPD firmware (M5PaperS3 e-paper image display).

Two firmware variants exist in the repository:
* the catalog-based firmware (`src/unnamed/part_000`): queries the GitHub
  listing API, selects the lexicographically latest `.jpg`/`.jpeg` filename,
  compares it with the filename persisted in RTC memory, and only on a change
  downloads and renders the image;
* the hash-based firmware (`src/src/main.cpp`, namespace `HashFW` below):
  downloads the image unconditionally, hashes it, and compares the hash with
  the persisted one.

External effects (WiFi driver, HTTP transport, JPEG decoder, malloc) are
modelled as oracle fields of an environment record; the firmware logic itself
is translated statement by statement.  C strings are modelled as Lean
`String`s (the identifiers involved are ASCII, where `strcmp` byte order and
code-point order coincide); the string primitives the firmware uses
(`String::endsWith`, `String::operator>`, `strcmp`, `strncpy`) are given
structurally recursive models below so that they evaluate inside the kernel.
-/

namespace FEPD

/-- Byte-wise strict comparison of one character pair, as `strcmp` performs it
(code points of ASCII characters equal their bytes). -/
def charLt (a b : Char) : Bool :=
  decide (a.toNat < b.toNat)

/-- Lexicographic strict order on character lists: the order `strcmp < 0` and
Arduino `String::operator<`/`operator>` induce. -/
def strLt : List Char → List Char → Bool
  | [], [] => false
  | [], _ :: _ => true
  | _ :: _, [] => false
  | a :: s, b :: t => if charLt a b then true else if charLt b a then false else strLt s t

/-- `a` is at most `b` in the `strcmp` order. -/
def strLe (a b : List Char) : Prop :=
  strLt b a = false

/-- Arduino `String::endsWith(suffix)`: length guard plus tail comparison. -/
def stringEndsWith (s suf : String) : Bool :=
  decide (suf.data.length ≤ s.data.length) &&
    decide (s.data.drop (s.data.length - suf.data.length) = suf.data)

/-- One entry of the GitHub listing JSON array.  `name` and `type` are
`Option` because the JSON fields may be absent (`item["name"]` yields a null
`const char*`). -/
structure CatalogEntry where
  name : Option String
  type : Option String
deriving DecidableEq

/-- `filename.endsWith(".jpg") || filename.endsWith(".jpeg")` from
`getLatestImageFilename` (case-sensitive, as Arduino `String::endsWith` is). -/
def isJpgName (s : String) : Bool :=
  stringEndsWith s ".jpg" || stringEndsWith s ".jpeg"

/-- Case-insensitive variant of the extension test.  Modelled from the spec:
"case-insensitive `.jpg`/`.jpeg`" — used only to compare the code's behaviour
with the spec's words. -/
def isJpgNameCI (s : String) : Bool :=
  stringEndsWith ⟨s.data.map Char.toLower⟩ ".jpg" ||
    stringEndsWith ⟨s.data.map Char.toLower⟩ ".jpeg"

/-- Loop body of `getLatestImageFilename`: keep the running maximum among
entries with `type == "file"` and a matching filename extension
(`if (filename > latestFilename) latestFilename = filename`). -/
def selectStep (latest : String) (e : CatalogEntry) : String :=
  match e.type, e.name with
  | some t, some n =>
    if t = "file" then
      if isJpgName n then
        if strLt latest.data n.data then n else latest
      else latest
    else latest
  | _, _ => latest

/-- `getLatestImageFilename` from `src/unnamed/part_000`.  `none` models a
failed HTTP GET or a JSON parse error (both return `""` in the source); the
entry loop is the fold over the parsed array starting from `""`. -/
def getLatestImageFilename (listing : Option (List CatalogEntry)) : String :=
  match listing with
  | none => ""
  | some entries => entries.foldl selectStep ""

/-- Spec-side selection step.  Modelled from the spec: identical fold but with
the case-insensitive extension test the spec asks for. -/
def selectStepCI (latest : String) (e : CatalogEntry) : String :=
  match e.type, e.name with
  | some t, some n =>
    if t = "file" then
      if isJpgNameCI n then
        if strLt latest.data n.data then n else latest
      else latest
    else latest
  | _, _ => latest

/-- Spec-side resolver: lexicographic maximum among case-insensitive
`.jpg`/`.jpeg` file entries.  Modelled from the spec. -/
def getLatestImageFilenameCI (listing : Option (List CatalogEntry)) : String :=
  match listing with
  | none => ""
  | some entries => entries.foldl selectStepCI ""

/-- An entry that participates in the selection: a `"file"` whose name passes
the (case-sensitive) extension test. -/
def entryMatches (e : CatalogEntry) : Bool :=
  match e.type, e.name with
  | some t, some n => t = "file" && isJpgName n
  | _, _ => false

theorem charLt_irrefl (a : Char) : charLt a a = false := by
  simp [charLt]

theorem charLt_asymm {a b : Char} (h : charLt a b = true) : charLt b a = false := by
  simp only [charLt, decide_eq_true_eq, decide_eq_false_iff_not, not_lt] at h ⊢
  omega

theorem charLt_connex {a b : Char} (hab : charLt a b = false) (hba : charLt b a = false) :
    a = b := by
  simp only [charLt, decide_eq_false_iff_not, not_lt] at hab hba
  exact Char.eq_of_val_eq (UInt32.toNat.inj (Nat.le_antisymm hba hab))

theorem strLt_irrefl (s : List Char) : strLt s s = false := by
  induction s with
  | nil => rfl
  | cons a s ih => simp [strLt, charLt_irrefl, ih]

theorem strLt_asymm : ∀ {a b : List Char}, strLt a b = true → strLt b a = false
  | [], [], h => by simp [strLt] at h
  | [], _ :: _, _ => rfl
  | _ :: _, [], h => by simp [strLt] at h
  | a :: s, b :: t, h => by
    by_cases hab : charLt a b = true
    · simp [strLt, charLt_asymm hab, hab]
    · rw [Bool.not_eq_true] at hab
      by_cases hba : charLt b a = true
      · simp [strLt, hab, hba] at h
      · rw [Bool.not_eq_true] at hba
        simp only [strLt, hab, hba, if_false] at h ⊢
        exact strLt_asymm h

theorem strLt_connex : ∀ {a b : List Char}, strLt a b = false → strLt b a = false → a = b
  | [], [], _, _ => rfl
  | [], _ :: _, h, _ => by simp [strLt] at h
  | _ :: _, [], _, h => by simp [strLt] at h
  | a :: s, b :: t, h, h' => by
    by_cases hab : charLt a b = true
    · simp [strLt, hab] at h
    · rw [Bool.not_eq_true] at hab
      by_cases hba : charLt b a = true
      · simp [strLt, hba] at h'
      · rw [Bool.not_eq_true] at hba
        simp only [strLt, hab, hba, if_false] at h h'
        rw [charLt_connex hab hba, strLt_connex h h']

theorem strLt_nil : ∀ (c : List Char), strLt c [] = false
  | [] => rfl
  | _ :: _ => rfl

/-- If `c < a` then for every `b` either `c < b` or `b < a`: the comparison
step of the fold never loses the maximum. -/
theorem strLt_or_of_lt : ∀ {a c : List Char} (b : List Char),
    strLt c a = true → strLt c b = true ∨ strLt b a = true
  | [], c, b, h => by rw [strLt_nil] at h; exact Bool.noConfusion h
  | _ :: _, _, [], _ => Or.inr rfl
  | a :: s, c, b :: t, h => by
    match c with
    | [] => exact Or.inl rfl
    | c :: u =>
      by_cases hcb : charLt c b = true
      · exact Or.inl (by simp [strLt, hcb])
      · rw [Bool.not_eq_true] at hcb
        by_cases hca : charLt c a = true
        · -- ¬ c < b gives b ≤ c, and c < a, hence b < a
          refine Or.inr ?_
          have hba : charLt b a = true := by
            simp only [charLt, decide_eq_true_eq, decide_eq_false_iff_not, not_lt]
              at hca hcb ⊢
            omega
          simp [strLt, hba]
        · rw [Bool.not_eq_true] at hca
          by_cases hac : charLt a c = true
          · simp [strLt, hac, charLt_asymm hac] at h
          · rw [Bool.not_eq_true] at hac
            have hca' : c = a := charLt_connex hca hac
            simp only [strLt, hca', charLt_irrefl, if_false] at h
            subst hca'
            by_cases hbc : charLt b c = true
            · exact Or.inr (by simp [strLt, hbc])
            · rw [Bool.not_eq_true] at hbc
              have hb : b = c := charLt_connex hbc hcb
              subst hb
              rcases strLt_or_of_lt t h with h' | h'
              · exact Or.inl (by simp [strLt, charLt_irrefl, h'])
              · exact Or.inr (by simp [strLt, charLt_irrefl, h'])

theorem strLe_refl (a : List Char) : strLe a a := strLt_irrefl a

theorem strLe_of_lt {a b : List Char} (h : strLt a b = true) : strLe a b :=
  strLt_asymm h

theorem strLe_trans {a b c : List Char} (hab : strLe a b) (hbc : strLe b c) :
    strLe a c := by
  unfold strLe at *
  by_contra h
  rw [Bool.not_eq_false] at h
  rcases strLt_or_of_lt b h with h' | h'
  · rw [h'] at hbc; exact Bool.noConfusion hbc
  · rw [h'] at hab; exact Bool.noConfusion hab

theorem le_selectStep (acc : String) (e : CatalogEntry) :
    strLe acc.data (selectStep acc e).data := by
  obtain ⟨name, type⟩ := e
  cases type with
  | none => exact strLe_refl _
  | some t =>
    cases name with
    | none => exact strLe_refl _
    | some n =>
      simp only [selectStep]
      split_ifs with h1 h2 h3
      · exact strLe_of_lt h3
      all_goals exact strLe_refl _

theorem le_foldl_selectStep :
    ∀ (l : List CatalogEntry) (acc : String), strLe acc.data (l.foldl selectStep acc).data
  | [], _ => strLe_refl _
  | e :: l, acc =>
    strLe_trans (le_selectStep acc e) (le_foldl_selectStep l (selectStep acc e))

theorem name_le_selectStep {e : CatalogEntry} {n : String} (acc : String)
    (hm : entryMatches e = true) (hn : e.name = some n) :
    strLe n.data (selectStep acc e).data := by
  obtain ⟨name, type⟩ := e
  simp only at hn
  subst hn
  cases type with
  | none => exact Bool.noConfusion hm
  | some t =>
    simp only [entryMatches, Bool.and_eq_true, decide_eq_true_eq] at hm
    obtain ⟨ht, hjpg⟩ := hm
    subst ht
    simp only [selectStep, if_pos rfl, hjpg, if_true]
    split_ifs with h
    · exact strLe_refl _
    · rw [Bool.not_eq_true] at h; exact h

theorem foldl_selectStep_upper :
    ∀ (l : List CatalogEntry) (acc : String) (e : CatalogEntry) (n : String),
      e ∈ l → entryMatches e = true → e.name = some n →
      strLe n.data (l.foldl selectStep acc).data
  | e' :: l, acc, e, n, hmem, hm, hn => by
    rcases List.mem_cons.mp hmem with h | h
    · subst h
      exact strLe_trans (name_le_selectStep acc hm hn) (le_foldl_selectStep l _)
    · exact foldl_selectStep_upper l _ e n h hm hn

theorem foldl_selectStep_attained :
    ∀ (l : List CatalogEntry) (acc : String),
      l.foldl selectStep acc = acc ∨
        ∃ e ∈ l, entryMatches e = true ∧ e.name = some (l.foldl selectStep acc)
  | [], _ => Or.inl rfl
  | e :: l, acc => by
    have step : selectStep acc e = acc ∨
        (entryMatches e = true ∧ e.name = some (selectStep acc e)) := by
      obtain ⟨name, type⟩ := e
      cases type with
      | none => exact Or.inl rfl
      | some t =>
        cases name with
        | none => exact Or.inl rfl
        | some n =>
          simp only [selectStep, entryMatches]
          split_ifs with h1 h2 h3
          · exact Or.inr ⟨by simp [h1, h2], rfl⟩
          all_goals exact Or.inl rfl
    rcases foldl_selectStep_attained l (selectStep acc e) with h | ⟨e', hmem, hm, hn⟩
    · rw [List.foldl_cons, h]
      rcases step with h' | ⟨hm, hn⟩
      · exact Or.inl h'
      · exact Or.inr ⟨e, List.mem_cons_self .., hm, hn⟩
    · exact Or.inr ⟨e', List.mem_cons_of_mem _ hmem, hm, hn⟩

/-- The catalog listing of the spec's selection-correctness test vector. -/
def demoListing : List CatalogEntry :=
  [⟨some "20240101_0000.jpg", some "file"⟩,
   ⟨some "20240229_1200.jpeg", some "file"⟩,
   ⟨some "notes.txt", some "file"⟩,
   ⟨some "20231231_2359.jpg", some "file"⟩]

/-- The `while (WiFi.status() != WL_CONNECTED && attempts < 30)` wait of
`connectWiFi`, returning the final value of `attempts`.  `status k` is the
driver's answer at the k-th poll; recursion is on the attempts still
allowed. -/
def wifiWait (status : Nat → Bool) : Nat → Nat → Nat
  | 0, attempts => attempts
  | remaining + 1, attempts =>
    if status attempts then attempts else wifiWait status remaining (attempts + 1)

/-- `connectWiFi` from `src/unnamed/part_000` (identical in
`src/src/main.cpp`): wait for association with an explicit 30-attempt
ceiling, then report whether the final status poll shows a connection. -/
def connectWiFi (status : Nat → Bool) : Bool :=
  status (wifiWait status 30 0)

/-- The `downloadImage` read loop over a finite transport trace: `chunks`
lists `stream->available()` at successive polls while `http.connected()`
holds; after the list ends the transport is disconnected.  A poll with data
consumes `min(available, *imageSize - bytesRead)` bytes; a poll with `0`
available only spends the `delay(10)`. -/
def readLoop : List Nat → Nat → Nat → Nat
  | [], bytesRead, _ => bytesRead
  | a :: rest, bytesRead, size =>
    if bytesRead < size then readLoop rest (bytesRead + min a (size - bytesRead)) size
    else bytesRead

/-- Step-indexed version of the same loop against an arbitrary transport:
`avail k = none` means `http.connected()` is false at the k-th poll,
`avail k = some a` means the transport is connected with `a` bytes
available.  A `none` result means the loop is still running after `fuel`
iterations — the source loop has no iteration bound of its own. -/
def readLoopFuel (avail : Nat → Option Nat) : Nat → Nat → Nat → Nat → Option Nat
  | 0, _, _, _ => none
  | fuel + 1, bytesRead, size, poll =>
    match avail poll with
    | none => some bytesRead
    | some a =>
      if bytesRead < size then
        readLoopFuel avail fuel (bytesRead + min a (size - bytesRead)) size (poll + 1)
      else some bytesRead

/-- The read loop over transport `avail` with declared size `size` eventually
exits when started from a fresh buffer. -/
def ReadLoopExits (avail : Nat → Option Nat) (size : Nat) : Prop :=
  ∃ fuel r, readLoopFuel avail fuel 0 size 0 = some r

/-- The read loop never exits, whatever iteration budget it is given. -/
def ReadLoopStalls (avail : Nat → Option Nat) (size : Nat) : Prop :=
  ∀ fuel, readLoopFuel avail fuel 0 size 0 = none

/-- Outcome of `downloadImage`: `data = some size` models a returned buffer
of that many bytes; the counters record `malloc` attempts, successful
allocations, and `free` calls made inside the function. -/
structure FetchResult where
  data : Option Nat
  allocAttempts : Nat
  allocSuccesses : Nat
  frees : Nat
deriving DecidableEq

/-- `1024 * 1024` from the size guard (`// Max 1MB`). -/
def MAX_IMAGE_BYTES : Nat := 1024 * 1024

/-- `downloadImage` from `src/unnamed/part_000` (the body is identical in
`src/src/main.cpp` apart from URL construction).  `httpOK` models
`httpCode == HTTP_CODE_OK`; `declaredSize` is `http.getSize()` after its
assignment to the unsigned `size_t` (so `*imageSize <= 0` reduces to
`= 0`, and a negative `getSize` wraps to a huge value caught by the `> 1MB`
test); `mallocOK` tells whether `malloc` succeeds; `chunks` is the transport
trace driving the read loop. -/
def downloadImage (httpOK : Bool) (declaredSize : Nat) (mallocOK : Bool)
    (chunks : List Nat) : FetchResult :=
  if httpOK = false then ⟨none, 0, 0, 0⟩
  else if declaredSize = 0 ∨ MAX_IMAGE_BYTES < declaredSize then ⟨none, 0, 0, 0⟩
  else if mallocOK = false then ⟨none, 1, 0, 0⟩
  else
    let bytesRead := readLoop chunks 0 declaredSize
    if bytesRead = declaredSize then ⟨some declaredSize, 1, 1, 0⟩
    else ⟨none, 1, 1, 1⟩

/-- Abstract content of the display framebuffer / physical panel. -/
inductive Frame
  | boot
  | blank
  | jpg (size : Nat)
  | text (msg : String)
deriving DecidableEq

/-- The e-paper display: `buffer` is what drawing primitives touch; `panel`
is the physically shown image, changed (with one slow refresh) only by
`M5.Display.display()`.  `refreshes` counts physical refreshes. -/
structure Display where
  buffer : Frame
  panel : Frame
  refreshes : Nat
deriving DecidableEq

/-- `displayImage` from `src/unnamed/part_000`: clear the buffer, decode the
JPEG into it (`decodeOK` is the decoder's verdict on these bytes), and only
on success push the buffer to the panel with a single
`M5.Display.display()` refresh. -/
def displayImage (decodeOK : Bool) (size : Nat) (d : Display) : Bool × Display :=
  let d1 : Display := { d with buffer := Frame.blank }
  if decodeOK then
    let d2 : Display := { d1 with buffer := Frame.jpg size }
    (true, { d2 with panel := d2.buffer, refreshes := d2.refreshes + 1 })
  else
    (false, d1)

/-- `showTemporaryError` from `src/unnamed/part_000`: with a valid prior
image the display is not touched at all; on first boot an error screen is
drawn and pushed with one refresh. -/
def showTemporaryError (msg : String) (hasValidImage : Bool) (d : Display) : Display :=
  if hasValidImage then d
  else { buffer := Frame.text msg, panel := Frame.text msg, refreshes := d.refreshes + 1 }

/-- The RTC-retained persistent pair:
`RTC_DATA_ATTR char lastImageFilename[64]` and
`RTC_DATA_ATTR bool hasValidImage`. -/
structure CycleState where
  lastImageFilename : String
  hasValidImage : Bool
deriving DecidableEq

/-- Both RTC scalars are zero-initialised on first-ever power-up. -/
def initialState : CycleState := ⟨"", false⟩

/-- The commit step of `setup`:
`strncpy(lastImageFilename, latestFilename.c_str(), 63)` followed by a
forced terminator stores at most the first 63 characters, and
`hasValidImage = true` is set in the same branch. -/
def commitState (latest : String) : CycleState :=
  ⟨⟨latest.data.take 63⟩, true⟩

/-- The oracle inputs consumed by one wake cycle. -/
structure Env where
  wifiStatus : Nat → Bool
  listing : Option (List CatalogEntry)
  imageHttpOK : Bool
  declaredSize : Nat
  mallocOK : Bool
  chunks : List Nat
  decodeOK : Bool

/-- Terminal branch a cycle ends in; each one immediately precedes the
`enterDeepSleep()` call in the source. -/
inductive Outcome
  | degradedWifi
  | degradedNoCatalog
  | unchanged
  | degradedFetch
  | committed
  | degradedRender
deriving DecidableEq

/-- Result of one wake cycle: final persistent state and display, terminal
branch, and counters for `downloadImage` calls, `displayImage` calls,
`enterDeepSleep()` calls and heap traffic (including the final
`free(imageData)` in `setup` itself). -/
structure CycleResult where
  state : CycleState
  display : Display
  outcome : Outcome
  fetchCalls : Nat
  renderCalls : Nat
  sleeps : Nat
  allocAttempts : Nat
  allocSuccesses : Nat
  frees : Nat
deriving DecidableEq

/-- `setup` from `src/unnamed/part_000`: one full wake cycle over persistent
state `s`, display `d` and environment `e`. -/
def setup (s : CycleState) (d : Display) (e : Env) : CycleResult :=
  if connectWiFi e.wifiStatus = false then
    ⟨s, showTemporaryError "WiFi failed" s.hasValidImage d, .degradedWifi, 0, 0, 1, 0, 0, 0⟩
  else
    let latest := getLatestImageFilename e.listing
    if latest.length = 0 then
      ⟨s, showTemporaryError "No images in repo" s.hasValidImage d, .degradedNoCatalog,
        0, 0, 1, 0, 0, 0⟩
    else if latest = s.lastImageFilename then
      ⟨s, d, .unchanged, 0, 0, 1, 0, 0, 0⟩
    else
      let f := downloadImage e.imageHttpOK e.declaredSize e.mallocOK e.chunks
      match f.data with
      | none =>
        ⟨s, showTemporaryError "Download failed" s.hasValidImage d, .degradedFetch,
          1, 0, 1, f.allocAttempts, f.allocSuccesses, f.frees⟩
      | some size =>
        let r := displayImage e.decodeOK size d
        if r.1 then
          ⟨commitState latest, r.2, .committed, 1, 1, 1,
            f.allocAttempts, f.allocSuccesses, f.frees + 1⟩
        else
          ⟨s, showTemporaryError "Display failed" s.hasValidImage r.2, .degradedRender,
            1, 1, 1, f.allocAttempts, f.allocSuccesses, f.frees + 1⟩

/-- Reachability invariant of the persistent pair: the firmware only ever
writes the two fields together, so a non-empty identifier and the validity
flag always agree. -/
def StateOK (s : CycleState) : Prop :=
  s.hasValidImage = true ↔ s.lastImageFilename ≠ ""

end FEPD

namespace HashFW

open FEPD

/-- Oracle inputs of one wake cycle of the hash-based firmware
(`src/src/main.cpp`).  `hashOf` is the SHA256 hex-digest oracle for the
downloaded buffer (the buffer is abstracted by its size, as everywhere in
this model). -/
structure Env where
  wifiStatus : Nat → Bool
  imageHttpOK : Bool
  declaredSize : Nat
  mallocOK : Bool
  chunks : List Nat
  hashOf : Nat → String
  decodeOK : Bool

/-- Result of one wake cycle of the hash-based firmware. -/
structure CycleResult where
  lastImageHash : String
  fetchCalls : Nat
  renderCalls : Nat
  sleeps : Nat
deriving DecidableEq

/-- `displayImage` from `src/src/main.cpp`: clears and draws into the buffer
but never calls `M5.Display.display()`, so the physical panel and the
refresh counter stay as they were. -/
def displayImage (decodeOK : Bool) (size : Nat) (d : Display) : Bool × Display :=
  let d1 : Display := { d with buffer := Frame.blank }
  if decodeOK then (true, { d1 with buffer := Frame.jpg size })
  else (false, d1)

/-- `setup` from `src/src/main.cpp`: downloads unconditionally, hashes the
bytes, and skips the display update when the hash equals the persisted
`lastImageHash`.  The 64-character hex digest fits the 65-byte RTC buffer,
so the `strcpy` commit is not truncating. -/
def setup (last : String) (e : Env) : CycleResult :=
  if connectWiFi e.wifiStatus = false then ⟨last, 0, 0, 1⟩
  else
    let f := downloadImage e.imageHttpOK e.declaredSize e.mallocOK e.chunks
    match f.data with
    | none => ⟨last, 1, 0, 1⟩
    | some size =>
      let currentHash := e.hashOf size
      if currentHash = last then ⟨last, 1, 0, 1⟩
      else if e.decodeOK then ⟨currentHash, 1, 1, 1⟩
      else ⟨last, 1, 1, 1⟩

end HashFW

namespace FEPD

theorem string_length_eq_zero {s : String} : s.length = 0 ↔ s = "" := by
  obtain ⟨l⟩ := s
  show l.length = 0 ↔ _
  rw [List.length_eq_zero]
  exact ⟨fun h => h ▸ rfl, fun h => congrArg String.data h⟩

/-- The zero-initialised RTC pair satisfies the reachability invariant. -/
theorem stateOK_initial : StateOK initialState := by
  simp [StateOK, initialState]

theorem setup_wifiFail (s : CycleState) (d : Display) (e : Env)
    (hw : connectWiFi e.wifiStatus = false) :
    setup s d e =
      ⟨s, showTemporaryError "WiFi failed" s.hasValidImage d, .degradedWifi,
        0, 0, 1, 0, 0, 0⟩ := by
  simp [setup, hw]

theorem setup_noCatalog (s : CycleState) (d : Display) (e : Env)
    (hw : connectWiFi e.wifiStatus = true)
    (hempty : getLatestImageFilename e.listing = "") :
    setup s d e =
      ⟨s, showTemporaryError "No images in repo" s.hasValidImage d, .degradedNoCatalog,
        0, 0, 1, 0, 0, 0⟩ := by
  have hw' : ¬ (connectWiFi e.wifiStatus = false) := by simp [hw]
  have hlen : (getLatestImageFilename e.listing).length = 0 :=
    string_length_eq_zero.mpr hempty
  simp only [setup]
  rw [if_neg hw', if_pos hlen]

theorem setup_unchanged (s : CycleState) (d : Display) (e : Env)
    (hw : connectWiFi e.wifiStatus = true)
    (hne : getLatestImageFilename e.listing ≠ "")
    (heq : getLatestImageFilename e.listing = s.lastImageFilename) :
    setup s d e = ⟨s, d, .unchanged, 0, 0, 1, 0, 0, 0⟩ := by
  have hw' : ¬ (connectWiFi e.wifiStatus = false) := by simp [hw]
  have hlen : ¬ (getLatestImageFilename e.listing).length = 0 := fun h =>
    hne (string_length_eq_zero.mp h)
  simp only [setup]
  rw [if_neg hw', if_neg hlen, if_pos heq]

theorem setup_fetchFail (s : CycleState) (d : Display) (e : Env)
    (hw : connectWiFi e.wifiStatus = true)
    (hne : getLatestImageFilename e.listing ≠ "")
    (hneq : ¬ getLatestImageFilename e.listing = s.lastImageFilename)
    (hfd : (downloadImage e.imageHttpOK e.declaredSize e.mallocOK e.chunks).data = none) :
    setup s d e =
      ⟨s, showTemporaryError "Download failed" s.hasValidImage d, .degradedFetch, 1, 0, 1,
        (downloadImage e.imageHttpOK e.declaredSize e.mallocOK e.chunks).allocAttempts,
        (downloadImage e.imageHttpOK e.declaredSize e.mallocOK e.chunks).allocSuccesses,
        (downloadImage e.imageHttpOK e.declaredSize e.mallocOK e.chunks).frees⟩ := by
  have hw' : ¬ (connectWiFi e.wifiStatus = false) := by simp [hw]
  have hlen : ¬ (getLatestImageFilename e.listing).length = 0 := fun h =>
    hne (string_length_eq_zero.mp h)
  simp only [setup]
  rw [if_neg hw', if_neg hlen, if_neg hneq, hfd]

theorem setup_renderFail (s : CycleState) (d : Display) (e : Env) (size : Nat)
    (hw : connectWiFi e.wifiStatus = true)
    (hne : getLatestImageFilename e.listing ≠ "")
    (hneq : ¬ getLatestImageFilename e.listing = s.lastImageFilename)
    (hfd : (downloadImage e.imageHttpOK e.declaredSize e.mallocOK e.chunks).data = some size)
    (hdec : e.decodeOK = false) :
    setup s d e =
      ⟨s, showTemporaryError "Display failed" s.hasValidImage
          (displayImage e.decodeOK size d).2, .degradedRender, 1, 1, 1,
        (downloadImage e.imageHttpOK e.declaredSize e.mallocOK e.chunks).allocAttempts,
        (downloadImage e.imageHttpOK e.declaredSize e.mallocOK e.chunks).allocSuccesses,
        (downloadImage e.imageHttpOK e.declaredSize e.mallocOK e.chunks).frees + 1⟩ := by
  have hw' : ¬ (connectWiFi e.wifiStatus = false) := by simp [hw]
  have hlen : ¬ (getLatestImageFilename e.listing).length = 0 := fun h =>
    hne (string_length_eq_zero.mp h)
  have hr1 : (displayImage e.decodeOK size d).1 = false := by
    simp [displayImage, hdec]
  simp only [setup]
  rw [if_neg hw', if_neg hlen, if_neg hneq, hfd]
  simp only [hr1, Bool.false_eq_true, if_neg]
  exact if_neg (by simp)

theorem setup_commit (s : CycleState) (d : Display) (e : Env) (size : Nat)
    (hw : connectWiFi e.wifiStatus = true)
    (hne : getLatestImageFilename e.listing ≠ "")
    (hneq : ¬ getLatestImageFilename e.listing = s.lastImageFilename)
    (hfd : (downloadImage e.imageHttpOK e.declaredSize e.mallocOK e.chunks).data = some size)
    (hdec : e.decodeOK = true) :
    setup s d e =
      ⟨commitState (getLatestImageFilename e.listing),
        (displayImage e.decodeOK size d).2, .committed, 1, 1, 1,
        (downloadImage e.imageHttpOK e.declaredSize e.mallocOK e.chunks).allocAttempts,
        (downloadImage e.imageHttpOK e.declaredSize e.mallocOK e.chunks).allocSuccesses,
        (downloadImage e.imageHttpOK e.declaredSize e.mallocOK e.chunks).frees + 1⟩ := by
  have hw' : ¬ (connectWiFi e.wifiStatus = false) := by simp [hw]
  have hlen : ¬ (getLatestImageFilename e.listing).length = 0 := fun h =>
    hne (string_length_eq_zero.mp h)
  have hr1 : (displayImage e.decodeOK size d).1 = true := by
    simp [displayImage, hdec]
  simp only [setup]
  rw [if_neg hw', if_neg hlen, if_neg hneq, hfd]
  simp only [hr1, if_pos]

/-- A committed identifier is never empty, so the stored 63-character
truncation is not empty either. -/
theorem commitState_filename_ne_empty {latest : String} (hne : latest ≠ "") :
    (commitState latest).lastImageFilename ≠ "" := by
  intro hmk
  have hdata : latest.data.take 63 = [] := congrArg String.data hmk
  rcases List.take_eq_nil_iff.mp hdata with h | h
  · exact absurd h (by omega)
  · exact hne (by cases latest; cases h; rfl)

/-- Every wake cycle preserves the reachability invariant: the only write is
the committed branch, which stores a non-empty identifier and sets the flag
in the same branch. -/
theorem stateOK_setup (s : CycleState) (d : Display) (e : Env) (hs : StateOK s) :
    StateOK (setup s d e).state := by
  by_cases hw : connectWiFi e.wifiStatus = false
  · rw [setup_wifiFail s d e hw]; exact hs
  · rw [Bool.not_eq_false] at hw
    by_cases hempty : getLatestImageFilename e.listing = ""
    · rw [setup_noCatalog s d e hw hempty]; exact hs
    · by_cases heq : getLatestImageFilename e.listing = s.lastImageFilename
      · rw [setup_unchanged s d e hw hempty heq]; exact hs
      · cases hfd : (downloadImage e.imageHttpOK e.declaredSize e.mallocOK e.chunks).data with
        | none => rw [setup_fetchFail s d e hw hempty heq hfd]; exact hs
        | some size =>
          cases hdec : e.decodeOK with
          | false => rw [setup_renderFail s d e size hw hempty heq hfd hdec]; exact hs
          | true =>
            rw [setup_commit s d e size hw hempty heq hfd hdec]
            exact ⟨fun _ => commitState_filename_ne_empty hempty, fun _ => rfl⟩

/-- A display fixture used by the concrete instantiations below. -/
def d0 : Display := ⟨Frame.boot, Frame.boot, 0⟩

/-- Environment fixture: WiFi associates at once, the catalog lists the single
image file `img_A.jpg`, and the transport would deliver the 4 declared
bytes. -/
def envA : Env :=
  ⟨fun _ => true, some [⟨some "img_A.jpg", some "file"⟩], true, 4, true, [4], true⟩

/-- State fixture: `img_A.jpg` was rendered by an earlier successful cycle. -/
def sA : CycleState := ⟨"img_A.jpg", true⟩

/-- Environment fixture in which the WiFi association never succeeds. -/
def envWifiFail : Env := ⟨fun _ => false, none, false, 0, false, [], false⟩

/-- Claim C1: under the reachability invariant of the persistent pair, a wake
cycle that brings up WiFi and resolves a non-empty identifier takes the
UNCHANGED branch iff the resolved identifier equals the persisted
`lastImageFilename` and the validity flag is set; in every other case it
invokes the fetch engine. -/
theorem C1_unchanged_iff (s : CycleState) (d : Display) (e : Env)
    (hs : StateOK s) (hw : connectWiFi e.wifiStatus = true)
    (hr : getLatestImageFilename e.listing ≠ "") :
    ((setup s d e).outcome = .unchanged ↔
      getLatestImageFilename e.listing = s.lastImageFilename ∧ s.hasValidImage = true) ∧
    (¬ (getLatestImageFilename e.listing = s.lastImageFilename ∧ s.hasValidImage = true) →
      (setup s d e).fetchCalls = 1) := by
  by_cases heq : getLatestImageFilename e.listing = s.lastImageFilename
  · have hval : s.hasValidImage = true := hs.mpr (heq ▸ hr)
    rw [setup_unchanged s d e hw hr heq]
    exact ⟨⟨fun _ => ⟨heq, hval⟩, fun _ => rfl⟩, fun h => absurd ⟨heq, hval⟩ h⟩
  · have hfetch : (setup s d e).outcome ≠ .unchanged ∧ (setup s d e).fetchCalls = 1 := by
      cases hfd : (downloadImage e.imageHttpOK e.declaredSize e.mallocOK e.chunks).data with
      | none => rw [setup_fetchFail s d e hw hr heq hfd]; exact ⟨by simp, rfl⟩
      | some size =>
        cases hdec : e.decodeOK with
        | false =>
          rw [setup_renderFail s d e size hw hr heq hfd hdec]; exact ⟨by simp, rfl⟩
        | true =>
          rw [setup_commit s d e size hw hr heq hfd hdec]; exact ⟨by simp, rfl⟩
    exact ⟨⟨fun h => absurd h hfetch.1, fun h => absurd h.1 heq⟩, fun _ => hfetch.2⟩

/-- Concrete instantiation of the C1 theorem: with `img_A.jpg` both resolved
and persisted (and the display valid), the cycle ends in the UNCHANGED
branch. -/
theorem C1_unchanged_iff_witness : (setup sA d0 envA).outcome = .unchanged :=
  ((C1_unchanged_iff sA d0 envA (by constructor <;> intro _ <;> decide)
      (by decide) (by decide)).1).mpr ⟨by decide, rfl⟩

/-- Claim C2: a cycle writes the persistent pair at most once — only the
committed branch writes it, as one atomic pair after a successful render;
a cycle ending in any other branch leaves both fields exactly as they
were. -/
theorem C2_commit_once (s : CycleState) (d : Display) (e : Env) :
    ((setup s d e).outcome ≠ .committed → (setup s d e).state = s) ∧
    ((setup s d e).outcome = .committed →
      (setup s d e).state = commitState (getLatestImageFilename e.listing) ∧
      (setup s d e).renderCalls = 1 ∧ e.decodeOK = true) := by
  by_cases hw : connectWiFi e.wifiStatus = false
  · rw [setup_wifiFail s d e hw]; exact ⟨fun _ => rfl, fun h => by simp at h⟩
  · rw [Bool.not_eq_false] at hw
    by_cases hempty : getLatestImageFilename e.listing = ""
    · rw [setup_noCatalog s d e hw hempty]; exact ⟨fun _ => rfl, fun h => by simp at h⟩
    · by_cases heq : getLatestImageFilename e.listing = s.lastImageFilename
      · rw [setup_unchanged s d e hw hempty heq]
        exact ⟨fun _ => rfl, fun h => by simp at h⟩
      · cases hfd : (downloadImage e.imageHttpOK e.declaredSize e.mallocOK e.chunks).data with
        | none =>
          rw [setup_fetchFail s d e hw hempty heq hfd]
          exact ⟨fun _ => rfl, fun h => by simp at h⟩
        | some size =>
          cases hdec : e.decodeOK with
          | false =>
            rw [setup_renderFail s d e size hw hempty heq hfd hdec]
            exact ⟨fun _ => rfl, fun h => by simp at h⟩
          | true =>
            rw [setup_commit s d e size hw hempty heq hfd hdec]
            exact ⟨fun h => absurd rfl h, fun _ => ⟨rfl, rfl, rfl⟩⟩

/-- Concrete instantiation of the C2 theorem: a cycle whose WiFi association
fails leaves the persisted pair untouched. -/
theorem C2_commit_once_witness : (setup sA d0 envWifiFail).state = sA :=
  (C2_commit_once sA d0 envWifiFail).1 (by decide)

/-- Claim C5: every wake cycle performs exactly one `enterDeepSleep()` call —
the success path and every degraded path alike end in the power-down
call. -/
theorem C5_always_sleeps (s : CycleState) (d : Display) (e : Env) :
    (setup s d e).sleeps = 1 := by
  by_cases hw : connectWiFi e.wifiStatus = false
  · rw [setup_wifiFail s d e hw]
  · rw [Bool.not_eq_false] at hw
    by_cases hempty : getLatestImageFilename e.listing = ""
    · rw [setup_noCatalog s d e hw hempty]
    · by_cases heq : getLatestImageFilename e.listing = s.lastImageFilename
      · rw [setup_unchanged s d e hw hempty heq]
      · cases hfd : (downloadImage e.imageHttpOK e.declaredSize e.mallocOK e.chunks).data with
        | none => rw [setup_fetchFail s d e hw hempty heq hfd]
        | some size =>
          cases hdec : e.decodeOK with
          | false => rw [setup_renderFail s d e size hw hempty heq hfd hdec]
          | true => rw [setup_commit s d e size hw hempty heq hfd hdec]

/-- Claim C6: one `displayImage` call performs at most one physical refresh;
when the decode fails, the panel is left exactly as before the call and no
refresh happens.  The `main.cpp` variant never refreshes inside
`displayImage` at all, so the bound holds there too. -/
theorem C6_single_refresh (ok : Bool) (size : Nat) (d : Display) :
    (displayImage ok size d).2.refreshes ≤ d.refreshes + 1 ∧
    ((displayImage ok size d).1 = false →
      (displayImage ok size d).2.panel = d.panel ∧
      (displayImage ok size d).2.refreshes = d.refreshes) ∧
    (HashFW.displayImage ok size d).2.panel = d.panel ∧
    (HashFW.displayImage ok size d).2.refreshes = d.refreshes := by
  cases ok <;> simp [displayImage, HashFW.displayImage]

/-- Concrete instantiation of the C6 theorem: a failed decode leaves the
boot-state panel untouched with zero refreshes. -/
theorem C6_single_refresh_witness :
    (displayImage false 7 d0).2.panel = d0.panel ∧
    (displayImage false 7 d0).2.refreshes = d0.refreshes :=
  (C6_single_refresh false 7 d0).2.1 (by decide)

/-- The single-entry listing that separates the code's case-sensitive
extension test from the spec's case-insensitive one. -/
def upperCaseListing : List CatalogEntry := [⟨some "B.JPG", some "file"⟩]

/-- Claim C3 counterexample: on a listing whose only file is `B.JPG`, the
code's resolver returns `""`, although the entry belongs to the spec's
case-insensitive extension set, whose lexicographic maximum is `B.JPG`; the
code thus differs from the spec-worded case-insensitive resolver. -/
theorem C3_case_sensitivity_cex :
    getLatestImageFilename (some upperCaseListing) = "" ∧
    isJpgNameCI "B.JPG" = true ∧
    getLatestImageFilenameCI (some upperCaseListing) = "B.JPG" ∧
    getLatestImageFilename (some upperCaseListing) ≠
      getLatestImageFilenameCI (some upperCaseListing) := by
  decide

/-- Claim C3 (amended): `getLatestImageFilename` returns the lexicographically
maximal name among entries whose type is `"file"` and whose name ends in
`.jpg`/`.jpeg` matched case-sensitively: every matching name is bounded by
the result, and a non-empty result is itself the name of a matching entry.
On the spec's example listing it returns `20240229_1200.jpeg`. -/
theorem C3_selection (entries : List CatalogEntry) :
    (∀ e ∈ entries, ∀ n, entryMatches e = true → e.name = some n →
      strLe n.data (getLatestImageFilename (some entries)).data) ∧
    (getLatestImageFilename (some entries) ≠ "" →
      ∃ e ∈ entries, entryMatches e = true ∧
        e.name = some (getLatestImageFilename (some entries))) ∧
    getLatestImageFilename (some demoListing) = "20240229_1200.jpeg" := by
  refine ⟨?_, ?_, by decide⟩
  · intro e he n hm hn
    exact foldl_selectStep_upper entries "" e n he hm hn
  · intro hne
    rcases foldl_selectStep_attained entries "" with h | h
    · exact absurd h hne
    · exact h

/-- Concrete instantiation of the C3 theorem on the spec's example listing:
`20240101_0000.jpg` is a matching entry, so it is bounded by the resolved
maximum. -/
theorem C3_selection_witness :
    strLe "20240101_0000.jpg".data
      (getLatestImageFilename (some demoListing)).data :=
  (C3_selection demoListing).1 ⟨some "20240101_0000.jpg", some "file"⟩ (by decide)
    "20240101_0000.jpg" (by decide) rfl

/-- Claim C4 (amended): in the catalog-based firmware, a cycle whose resolved
identifier equals the identifier persisted by a previous successful cycle
performs zero fetch calls, zero render calls and zero panel refreshes, and
leaves the persistent state and the display untouched. -/
theorem C4_idempotent (s : CycleState) (d : Display) (e : Env)
    (hw : connectWiFi e.wifiStatus = true)
    (hr : getLatestImageFilename e.listing ≠ "")
    (heq : getLatestImageFilename e.listing = s.lastImageFilename) :
    (setup s d e).fetchCalls = 0 ∧ (setup s d e).renderCalls = 0 ∧
    (setup s d e).state = s ∧ (setup s d e).display = d ∧
    (setup s d e).display.refreshes = d.refreshes := by
  rw [setup_unchanged s d e hw hr heq]
  exact ⟨rfl, rfl, rfl, rfl, rfl⟩

/-- Concrete instantiation of the C4 theorem: the spec's scenario B with
`img_A.jpg` resolved and persisted. -/
theorem C4_idempotent_witness :
    (setup sA d0 envA).fetchCalls = 0 ∧ (setup sA d0 envA).renderCalls = 0 :=
  ⟨(C4_idempotent sA d0 envA (by decide) (by decide) (by decide)).1,
   (C4_idempotent sA d0 envA (by decide) (by decide) (by decide)).2.1⟩

/-- Environment fixture for the hash-based firmware in which the downloaded
image hashes to the persisted digest `a3f0`. -/
def envHashSame : HashFW.Env :=
  ⟨fun _ => true, true, 4, true, [4], fun _ => "a3f0", true⟩

/-- Claim C4 counterexample: in the hash-based firmware (`src/src/main.cpp`),
a cycle whose resolved identifier — the content hash `a3f0` — equals the
persisted identifier still performs one fetch call, because the download
precedes the comparison; this contradicts the claim's "zero fetch calls",
while renders stay skipped and the state unchanged. -/
theorem C4_hash_fetches_cex :
    (HashFW.setup "a3f0" envHashSame).fetchCalls = 1 ∧
    (HashFW.setup "a3f0" envHashSame).renderCalls = 0 ∧
    (HashFW.setup "a3f0" envHashSame).lastImageHash = "a3f0" := by
  decide

/-- Claim C7: `downloadImage` hands a buffer downstream iff the read loop
accumulated exactly the declared byte count; whenever it fails — in
particular on a short read — every buffer it allocated has been freed before
it returns. -/
theorem C7_short_read (httpOK : Bool) (declaredSize : Nat) (mallocOK : Bool)
    (chunks : List Nat) :
    ((downloadImage httpOK declaredSize mallocOK chunks).data ≠ none ↔
      httpOK = true ∧ ¬ (declaredSize = 0 ∨ MAX_IMAGE_BYTES < declaredSize) ∧
      mallocOK = true ∧ readLoop chunks 0 declaredSize = declaredSize) ∧
    ((downloadImage httpOK declaredSize mallocOK chunks).data = none →
      (downloadImage httpOK declaredSize mallocOK chunks).frees =
        (downloadImage httpOK declaredSize mallocOK chunks).allocSuccesses) := by
  unfold downloadImage
  by_cases h1 : httpOK = false
  · simp [h1]
  · rw [Bool.not_eq_false] at h1
    by_cases h2 : declaredSize = 0 ∨ MAX_IMAGE_BYTES < declaredSize
    · simp [h1, h2]
    · by_cases h3 : mallocOK = false
      · simp [h1, h2, h3]
      · rw [Bool.not_eq_false] at h3
        by_cases h4 : readLoop chunks 0 declaredSize = declaredSize
        · simp [h1, h2, h3, h4]
        · simp [h1, h2, h3, h4]

/-- Concrete instantiation of the C7 theorem: 900 of 1000 declared bytes
arrive before disconnection, so the fetch fails and the allocated buffer is
freed. -/
theorem C7_short_read_witness :
    (downloadImage true 1000 true [900]).data = none ∧
    (downloadImage true 1000 true [900]).frees =
      (downloadImage true 1000 true [900]).allocSuccesses :=
  ⟨by decide, (C7_short_read true 1000 true [900]).2 (by decide)⟩

/-- Claim C8: a declared size of 0 or above 1 MiB makes `downloadImage` fail
with zero allocation attempts; an allocation is only ever attempted for
declared sizes in (0, 1 MiB]. -/
theorem C8_size_guard (httpOK : Bool) (declaredSize : Nat) (mallocOK : Bool)
    (chunks : List Nat) :
    ((declaredSize = 0 ∨ MAX_IMAGE_BYTES < declaredSize) →
      (downloadImage httpOK declaredSize mallocOK chunks).data = none ∧
      (downloadImage httpOK declaredSize mallocOK chunks).allocAttempts = 0) ∧
    ((downloadImage httpOK declaredSize mallocOK chunks).allocAttempts ≠ 0 →
      0 < declaredSize ∧ declaredSize ≤ MAX_IMAGE_BYTES) := by
  unfold downloadImage
  split_ifs with h1 h2 h3 <;> simp_all <;> omega

/-- Concrete instantiation of the C8 theorem: a declared size of 2000000
bytes (above 1 MiB) is rejected with zero allocation attempts. -/
theorem C8_size_guard_witness :
    (downloadImage true 2000000 true []).data = none ∧
    (downloadImage true 2000000 true []).allocAttempts = 0 :=
  (C8_size_guard true 2000000 true []).1 (Or.inr (by decide))

theorem readLoopFuel_stall :
    ∀ (fuel bytesRead poll : Nat), bytesRead < 1000 →
      readLoopFuel (fun _ => some 0) fuel bytesRead 1000 poll = none
  | 0, _, _, _ => rfl
  | fuel + 1, b, p, hb => by
    simp only [readLoopFuel, if_pos hb, Nat.zero_min, Nat.add_zero]
    exact readLoopFuel_stall fuel b (p + 1) hb

/-- Claim C9 counterexample: a transport that stays connected but never
delivers a byte keeps the `downloadImage` read loop running forever — the
loop has no attempt or timeout ceiling of its own, only the disconnect test. -/
theorem C9_unbounded_cex : ReadLoopStalls (fun _ => some 0) 1000 :=
  fun fuel => readLoopFuel_stall fuel 0 0 (by decide)

theorem wifiWait_le (status : Nat → Bool) :
    ∀ (remaining attempts : Nat), wifiWait status remaining attempts ≤ attempts + remaining
  | 0, a => Nat.le_of_eq rfl |>.trans (Nat.le_add_right a 0)
  | r + 1, a => by
    unfold wifiWait
    split
    · omega
    · have := wifiWait_le status r (a + 1)
      omega

theorem readLoop_exits_of_disconnect :
    ∀ (k : Nat) (avail : Nat → Option Nat) (size poll bytesRead : Nat),
      avail (poll + k) = none →
      ∃ fuel r, readLoopFuel avail fuel bytesRead size poll = some r
  | 0, avail, size, poll, b, h =>
    ⟨1, b, by simp [readLoopFuel, show avail poll = none from by simpa using h]⟩
  | k + 1, avail, size, poll, b, h => by
    cases ha : avail poll with
    | none => exact ⟨1, b, by simp [readLoopFuel, ha]⟩
    | some a =>
      by_cases hb : b < size
      · have h' : avail (poll + 1 + k) = none := by
          rw [show poll + 1 + k = poll + (k + 1) by omega]
          exact h
        obtain ⟨f, r, hf⟩ :=
          readLoop_exits_of_disconnect k avail size (poll + 1) (b + min a (size - b)) h'
        exact ⟨f + 1, r, by simp [readLoopFuel, ha, if_pos hb, hf]⟩
      · exact ⟨1, b, by simp [readLoopFuel, ha, if_neg hb]⟩

/-- Claim C9 (amended): the WiFi association wait is bounded by an explicit
30-attempt ceiling; the fetch read loop carries no explicit ceiling of its
own — it exits for every transport that eventually reports disconnection,
while a transport that stays connected without delivering bytes stalls it
(see the counterexample). -/
theorem C9_bounded_waits (status : Nat → Bool) (avail : Nat → Option Nat)
    (size : Nat) (hdisc : ∃ n, avail n = none) :
    wifiWait status 30 0 ≤ 30 ∧ ReadLoopExits avail size := by
  obtain ⟨n, hn⟩ := hdisc
  refine ⟨by simpa using wifiWait_le status 30 0, ?_⟩
  exact readLoop_exits_of_disconnect n avail size 0 0 (by simpa using hn)

/-- Concrete instantiation of the C9 theorem: a transport disconnecting at
the third poll lets the read loop exit, and the WiFi wait stays within its
30-attempt cap. -/
theorem C9_bounded_waits_witness :
    wifiWait (fun _ => true) 30 0 ≤ 30 ∧
    ReadLoopExits (fun k => if k < 2 then some 0 else none) 5 :=
  C9_bounded_waits (fun _ => true) (fun k => if k < 2 then some 0 else none) 5
    ⟨2, by decide⟩

/-- Claim C10: the RTC identifier buffer keeps at most 63 characters plus the
terminator, so committing an identifier of length 64 or more stores a
truncated copy; on any later cycle with the same catalog result the resolved
identifier differs from the stored one and the fetch path runs again. -/
theorem C10_truncation (d : Display) (e : Env)
    (hw : connectWiFi e.wifiStatus = true)
    (hlong : 64 ≤ (getLatestImageFilename e.listing).length) :
    (commitState (getLatestImageFilename e.listing)).lastImageFilename.length = 63 ∧
    (commitState (getLatestImageFilename e.listing)).lastImageFilename ≠
      getLatestImageFilename e.listing ∧
    (setup (commitState (getLatestImageFilename e.listing)) d e).fetchCalls = 1 ∧
    (setup (commitState (getLatestImageFilename e.listing)) d e).state =
      commitState (getLatestImageFilename e.listing) := by
  have hlong' : 64 ≤ (getLatestImageFilename e.listing).data.length := hlong
  have hlen63 : (commitState (getLatestImageFilename e.listing)).lastImageFilename.length = 63 := by
    show ((getLatestImageFilename e.listing).data.take 63).length = 63
    rw [List.length_take]
    omega
  have hne : (commitState (getLatestImageFilename e.listing)).lastImageFilename ≠
      getLatestImageFilename e.listing := by
    intro h
    have := congrArg String.length h
    rw [hlen63] at this
    omega
  have hr : getLatestImageFilename e.listing ≠ "" := by
    intro h
    have := string_length_eq_zero.mpr h
    omega
  have hneq : ¬ getLatestImageFilename e.listing =
      (commitState (getLatestImageFilename e.listing)).lastImageFilename :=
    fun h => hne h.symm
  refine ⟨hlen63, hne, ?_⟩
  cases hfd : (downloadImage e.imageHttpOK e.declaredSize e.mallocOK e.chunks).data with
  | none =>
    rw [setup_fetchFail (commitState (getLatestImageFilename e.listing)) d e hw hr hneq hfd]
    exact ⟨rfl, rfl⟩
  | some size =>
    cases hdec : e.decodeOK with
    | false =>
      rw [setup_renderFail (commitState (getLatestImageFilename e.listing)) d e size
        hw hr hneq hfd hdec]
      exact ⟨rfl, rfl⟩
    | true =>
      rw [setup_commit (commitState (getLatestImageFilename e.listing)) d e size
        hw hr hneq hfd hdec]
      exact ⟨rfl, rfl⟩

/-- A 64-character identifier: 60 `a`s followed by `.jpg`. -/
def longName : String :=
  "aaaaaaaaaaaaaaaaaaaaaaaaaaaaaaaaaaaaaaaaaaaaaaaaaaaaaaaaaaaa.jpg"

/-- Environment fixture whose catalog resolves the 64-character `longName`. -/
def envLong : Env :=
  ⟨fun _ => true, some [⟨some longName, some "file"⟩], true, 4, true, [4], true⟩

/-- Concrete instantiation of the C10 theorem: after committing the
64-character identifier, the next cycle with the same catalog result runs
the fetch path again. -/
theorem C10_truncation_witness :
    (setup (commitState (getLatestImageFilename envLong.listing)) d0 envLong).fetchCalls = 1 :=
  (C10_truncation d0 envLong (by decide) (by decide)).2.2.1

end FEPD
